import Mathlib

/-!
Shallow embedding of the "plausible futures" ideation backend.

The store is the five logical tables created in `backend/db.js`
(sessions, topics, session_participants, contributions, votes), modelled as
lists of rows.  Each HTTP route handler from `backend/routes/*.js` becomes a
pure function from a request plus the current store to a response paired with
the updated store.  Non-deterministic inputs of the source (generated ids,
`new Date().toISOString()` timestamps) are taken as explicit arguments.
-/

namespace PlausibleFutures

/-- A row of the `sessions` table (`backend/db.js`). -/
structure SessionRow where
  session_id : String
  name : String
  moderator_id : String
  session_state : String
  created_at : String
deriving Repr, DecidableEq

/-- A row of the `topics` table (`backend/db.js`). -/
structure TopicRow where
  topic_id : String
  session_id : String
  domain : String
  topic_name : String
  sort_order : Nat
deriving Repr, DecidableEq

/-- A row of the `session_participants` table (`backend/db.js`). -/
structure ParticipantRow where
  session_id : String
  participant_id : String
  display_name : String
  email : String
  status : String
  joined_at : String
  submitted_at : Option String
deriving Repr, DecidableEq

/-- A row of the `contributions` table (`backend/db.js`). -/
structure ContributionRow where
  contribution_id : String
  session_id : String
  topic_id : String
  participant_id : String
  current_status : String
  minor_impact : String
  disruption : String
  reimagination : String
  submitted_at : String
deriving Repr, DecidableEq

/-- A row of the `votes` table (`backend/db.js`). -/
structure VoteRow where
  vote_id : String
  contribution_id : String
  voter_id : String
  voted_at : String
deriving Repr, DecidableEq

/-- The whole relational store. -/
structure DB where
  sessions : List SessionRow
  topics : List TopicRow
  session_participants : List ParticipantRow
  contributions : List ContributionRow
  votes : List VoteRow
deriving Repr, DecidableEq

/-- `SELECT ... FROM sessions WHERE session_id = ?` (first match). -/
def findSession (db : DB) (sessionId : String) : Option SessionRow :=
  db.sessions.find? (fun s => s.session_id == sessionId)

/-- `SELECT ... FROM session_participants WHERE session_id = ? AND participant_id = ?`. -/
def findParticipant (db : DB) (sessionId participantId : String) : Option ParticipantRow :=
  db.session_participants.find?
    (fun p => p.session_id == sessionId && p.participant_id == participantId)

/-- `SELECT ... FROM contributions WHERE contribution_id = ? AND session_id = ?`. -/
def findContribution (db : DB) (contributionId sessionId : String) : Option ContributionRow :=
  db.contributions.find?
    (fun c => c.contribution_id == contributionId && c.session_id == sessionId)

/-- `SELECT vote_id FROM votes WHERE contribution_id = ? AND voter_id = ?`. -/
def findVote (db : DB) (contributionId voterId : String) : Option VoteRow :=
  db.votes.find?
    (fun v => v.contribution_id == contributionId && v.voter_id == voterId)

/-- `SELECT COUNT(*) FROM votes WHERE contribution_id = ?` — always a live aggregate. -/
def countVotesFor (db : DB) (contributionId : String) : Nat :=
  (db.votes.filter (fun v => v.contribution_id == contributionId)).length

/-- All contribution rows for one (session, topic, participant) triple. -/
def rowsForTriple (db : DB) (sessionId topicId participantId : String) : List ContributionRow :=
  db.contributions.filter (fun c =>
    c.session_id == sessionId && c.topic_id == topicId && c.participant_id == participantId)

/-- All roster rows for one (session, participant) pair. -/
def rosterRows (db : DB) (sessionId participantId : String) : List ParticipantRow :=
  db.session_participants.filter
    (fun p => p.session_id == sessionId && p.participant_id == participantId)

/-! ### Substring test, modelling JavaScript `String.prototype.includes` -/

/-- `pat` is a prefix of `s`, on character lists. -/
def charsHavePrefix : List Char → List Char → Bool
  | _, [] => true
  | [], _ :: _ => false
  | c :: cs, d :: ds => c == d && charsHavePrefix cs ds

/-- `pat` occurs somewhere inside `s`, on character lists. -/
def charsHaveSubstr : List Char → List Char → Bool
  | [], pat => pat.isEmpty
  | s@(_ :: cs), pat => charsHavePrefix s pat || charsHaveSubstr cs pat

/-- JavaScript `s.includes(pat)`. -/
def strIncludes (s pat : String) : Bool :=
  charsHaveSubstr s.toList pat.toList

/-! ### Store-level inserts with uniqueness constraints

`backend/db.js` declares `votes (vote_id TEXT PRIMARY KEY, ..., UNIQUE(contribution_id, voter_id))`
and `contributions (contribution_id TEXT PRIMARY KEY, ..., UNIQUE(session_id, topic_id, participant_id))`.
A violated constraint makes the driver throw; the sql.js/SQLite message starts with
`UNIQUE constraint failed: ...`, the PostgreSQL message with `duplicate key value ...`.
-/

/-- `INSERT INTO votes ...` against the sql.js store (`backend/db.js`):
fails when the `vote_id` primary key or the `UNIQUE(contribution_id, voter_id)`
constraint would be violated, otherwise appends the row. -/
def insertVote (db : DB) (v : VoteRow) : Except String DB :=
  if db.votes.any (fun w => w.vote_id == v.vote_id) then
    Except.error "UNIQUE constraint failed: votes.vote_id"
  else if db.votes.any (fun w =>
      w.contribution_id == v.contribution_id && w.voter_id == v.voter_id) then
    Except.error "UNIQUE constraint failed: votes.contribution_id, votes.voter_id"
  else
    Except.ok { db with votes := db.votes ++ [v] }

/-- The `DO UPDATE SET` clause applied to one stored row: a row matching the
incoming row's (session, topic, participant) triple gets its id, four text
fields and timestamp overwritten; any other row is untouched. -/
def upsertContent (c r : ContributionRow) : ContributionRow :=
  if r.session_id == c.session_id && r.topic_id == c.topic_id
      && r.participant_id == c.participant_id then
    { r with
      contribution_id := c.contribution_id
      current_status := c.current_status
      minor_impact := c.minor_impact
      disruption := c.disruption
      reimagination := c.reimagination
      submitted_at := c.submitted_at }
  else r

/-- `INSERT INTO contributions ... ON CONFLICT (session_id, topic_id, participant_id)
DO UPDATE SET contribution_id = EXCLUDED.contribution_id, ...` from
`backend/routes/contributions.js`, run through `db-postgres.js`: if a row with
the same (session, topic, participant) triple exists, it is overwritten in
place — but since the `DO UPDATE` also rewrites the row's `contribution_id`,
PostgreSQL still raises a duplicate-key error when the incoming id already
belongs to a *different* row; without a triple conflict the row is inserted,
which likewise fails when the `contribution_id` primary key is taken. -/
def insertContribution (db : DB) (c : ContributionRow) : Except String DB :=
  if db.contributions.any (fun r =>
      r.session_id == c.session_id && r.topic_id == c.topic_id
        && r.participant_id == c.participant_id) then
    if db.contributions.any (fun r =>
        r.contribution_id == c.contribution_id
          && !(r.session_id == c.session_id && r.topic_id == c.topic_id
            && r.participant_id == c.participant_id)) then
      Except.error "duplicate key value violates unique constraint contributions_pkey"
    else
      Except.ok { db with contributions := db.contributions.map (upsertContent c) }
  else if db.contributions.any (fun r => r.contribution_id == c.contribution_id) then
    Except.error "duplicate key value violates unique constraint contributions_pkey"
  else
    Except.ok { db with contributions := db.contributions ++ [c] }

/-! ### POST /api/sessions/:sessionId/votes (`backend/routes/votes.js`) -/

/-- The JSON body a vote request produces (status code, `success`, `error`,
`newVoteCount` fields). -/
structure VoteResponse where
  status : Nat
  success : Bool
  error : Option String
  newVoteCount : Option Nat
deriving Repr, DecidableEq

def voteMissingFieldsResponse : VoteResponse :=
  ⟨400, false, some "Missing required fields: contributionId, voterId", none⟩

def voteSessionNotFoundResponse : VoteResponse :=
  ⟨404, false, some "Session not found", none⟩

/-- The `VotingNotEnabled` failure; its message includes the current state. -/
def votingNotEnabledResponse (currentState : String) : VoteResponse :=
  ⟨400, false,
    some ("Voting is not enabled. Session is in \"" ++ currentState ++ "\" state."), none⟩

def contributionNotFoundResponse : VoteResponse :=
  ⟨404, false, some "Contribution not found", none⟩

def selfVoteResponse : VoteResponse :=
  ⟨403, false, some "Cannot vote on your own contribution", none⟩

/-- The `DuplicateVote` domain failure (both the application-level duplicate
check and the translated store constraint violation produce exactly this). -/
def duplicateVoteResponse : VoteResponse :=
  ⟨409, false, some "You have already voted on this contribution", none⟩

/-- The generic storage failure of the vote route. -/
def voteStorageErrorResponse : VoteResponse :=
  ⟨500, false, some "Failed to record vote", none⟩

def voteSuccessResponse (newVoteCount : Nat) : VoteResponse :=
  ⟨200, true, none, some newVoteCount⟩

/-- The vote handler, with the read snapshot (`dbCheck`) used by its
precondition queries separated from the store (`dbWrite`) the `INSERT` runs
against.  The source reads and writes one shared store; a concurrent request
may commit between the duplicate-check read and the insert, which is exactly
`dbCheck ≠ dbWrite`.  `voteId` and `votedAt` stand for the generated
`vote-${Date.now()}-...` id and `new Date().toISOString()`. -/
def castVoteWith (dbCheck dbWrite : DB)
    (sessionId contributionId voterId voteId votedAt : String) : VoteResponse × DB :=
  if contributionId = "" ∨ voterId = "" then
    (voteMissingFieldsResponse, dbWrite)
  else
    match findSession dbCheck sessionId with
    | none => (voteSessionNotFoundResponse, dbWrite)
    | some session =>
      if session.session_state ≠ "voting" then
        (votingNotEnabledResponse session.session_state, dbWrite)
      else
        match findContribution dbCheck contributionId sessionId with
        | none => (contributionNotFoundResponse, dbWrite)
        | some contribution =>
          if contribution.participant_id = voterId then
            (selfVoteResponse, dbWrite)
          else
            match findVote dbCheck contributionId voterId with
            | some _ => (duplicateVoteResponse, dbWrite)
            | none =>
              match insertVote dbWrite ⟨voteId, contributionId, voterId, votedAt⟩ with
              | Except.error msg =>
                if strIncludes msg "UNIQUE constraint failed" then
                  (duplicateVoteResponse, dbWrite)
                else
                  (voteStorageErrorResponse, dbWrite)
              | Except.ok db' =>
                (voteSuccessResponse (countVotesFor db' contributionId), db')

/-- The sequential vote handler: checks and insert see the same store. -/
def castVote (db : DB)
    (sessionId contributionId voterId voteId votedAt : String) : VoteResponse × DB :=
  castVoteWith db db sessionId contributionId voterId voteId votedAt

/-! ### PATCH /api/sessions/:sessionId/state (`backend/routes/sessions.js`) -/

structure StateResponse where
  status : Nat
  success : Bool
  error : Option String
  state : Option String
deriving Repr, DecidableEq

/-- The six labels the handler accepts. -/
def validStates : List String :=
  ["setup", "published", "contributing", "voting", "voting_locked", "final"]

def invalidStateResponse : StateResponse :=
  ⟨400, false,
    some "Invalid state. Must be one of: setup, published, contributing, voting, voting_locked, final",
    none⟩

def stateSessionNotFoundResponse : StateResponse :=
  ⟨404, false, some "Session not found", none⟩

def stateOkResponse (state : String) : StateResponse :=
  ⟨200, true, none, some state⟩

/-- The state handler.  The request body carries only `state`; the source
reads no caller identity whatsoever, so the update is attempted for every
caller alike. -/
def setState (db : DB) (sessionId state : String) : StateResponse × DB :=
  if state = "" ∨ ¬ validStates.contains state then
    (invalidStateResponse, db)
  else
    match findSession db sessionId with
    | none => (stateSessionNotFoundResponse, db)
    | some _ =>
      (stateOkResponse state,
        { db with sessions := db.sessions.map (fun s =>
            if s.session_id == sessionId then { s with session_state := state } else s) })

/-! ### POST /api/sessions/:sessionId/join (`backend/routes/sessions.js`) -/

structure JoinResponse where
  status : Nat
  success : Bool
  error : Option String
  message : Option String
deriving Repr, DecidableEq

def joinMissingFieldResponse : JoinResponse :=
  ⟨400, false, some "Missing required field: participantId", none⟩

def joinSessionNotFoundResponse : JoinResponse :=
  ⟨404, false, some "Session not found", none⟩

/-- The `SessionFinalized` failure of the join route. -/
def sessionFinalizedResponse : JoinResponse :=
  ⟨403, false, some "Cannot join session. Session is finalized.", none⟩

def alreadyJoinedResponse : JoinResponse :=
  ⟨200, true, none, some "Already joined session"⟩

def joinedResponse : JoinResponse :=
  ⟨201, true, none, some "Successfully joined session"⟩

/-- The roster row a successful join inserts; the JS `displayName || participantId`
and `email || participantId` defaults are the empty-string fallbacks. -/
def newParticipantRow (sessionId participantId displayName email now : String) :
    ParticipantRow :=
  { session_id := sessionId
    participant_id := participantId
    display_name := if displayName = "" then participantId else displayName
    email := if email = "" then participantId else email
    status := "joined"
    joined_at := now
    submitted_at := none }

/-- The join handler.  `now` stands for `new Date().toISOString()`. -/
def joinSession (db : DB) (sessionId participantId displayName email now : String) :
    JoinResponse × DB :=
  if participantId = "" then
    (joinMissingFieldResponse, db)
  else
    match findSession db sessionId with
    | none => (joinSessionNotFoundResponse, db)
    | some session =>
      if session.session_state = "final" then
        (sessionFinalizedResponse, db)
      else
        match findParticipant db sessionId participantId with
        | some _ => (alreadyJoinedResponse, db)
        | none =>
          (joinedResponse,
            { db with session_participants := db.session_participants ++
                [newParticipantRow sessionId participantId displayName email now] })

/-! ### POST /api/sessions/:sessionId/contributions (`backend/routes/contributions.js`) -/

/-- One element of the request's `submissions` array.  Absent JSON fields are
the empty string (the handler applies `|| ''` / `|| now` defaults). -/
structure Submission where
  rowId : String
  currentStatus : String
  minorImpact : String
  disruption : String
  reimagination : String
  submittedAt : String
deriving Repr, DecidableEq

structure SubmitResponse where
  status : Nat
  success : Bool
  error : Option String
  contributionsCount : Option Nat
deriving Repr, DecidableEq

def submitMissingFieldsResponse : SubmitResponse :=
  ⟨400, false, some "Missing required fields: participantId, submissions", none⟩

def submitEmptyResponse : SubmitResponse :=
  ⟨400, false, some "No submissions provided", none⟩

def submitSessionNotFoundResponse : SubmitResponse :=
  ⟨404, false, some "Session not found", none⟩

/-- The `InvalidSessionState` failure of the contributions route; its message
includes the current state. -/
def submitInvalidStateResponse (currentState : String) : SubmitResponse :=
  ⟨400, false,
    some ("Cannot submit contributions. Session is in \"" ++ currentState ++
      "\" state. Must be \"published\" or \"contributing\"."), none⟩

def submitConflictResponse : SubmitResponse :=
  ⟨409, false, some "Contributions already submitted for one or more topics", none⟩

def submitStorageErrorResponse : SubmitResponse :=
  ⟨500, false, some "Failed to save contributions", none⟩

def submitSuccessResponse (count : Nat) : SubmitResponse :=
  ⟨200, true, none, some count⟩

/-- The contribution row an item of the batch is written as:
`submission.rowId` is the topic id, the four text fields and the timestamp
come from the item, `contributionId` is the freshly generated id. -/
def contributionOfSubmission (contributionId sessionId participantId now : String)
    (s : Submission) : ContributionRow :=
  { contribution_id := contributionId
    session_id := sessionId
    topic_id := s.rowId
    participant_id := participantId
    current_status := s.currentStatus
    minor_impact := s.minorImpact
    disruption := s.disruption
    reimagination := s.reimagination
    submitted_at := if s.submittedAt = "" then now else s.submittedAt }

/-- The handler's `for (const submission of submissions)` loop: each upsert is
awaited and committed on its own (there is no surrounding transaction), so on
a failure the store keeps every upsert made before it.  Returns the store
after the last successful upsert, the count of processed items, and the error
message of the failing statement, if any. -/
def submitLoop (sessionId participantId now : String) :
    DB → Nat → List (String × Submission) → DB × Nat × Option String
  | db, saved, [] => (db, saved, none)
  | db, saved, (contributionId, s) :: rest =>
    match insertContribution db
        (contributionOfSubmission contributionId sessionId participantId now s) with
    | Except.ok db' => submitLoop sessionId participantId now db' (saved + 1) rest
    | Except.error msg => (db, saved, some msg)

/-- `UPDATE session_participants SET status = 'submitted', submitted_at = ? WHERE ...`. -/
def markSubmitted (db : DB) (sessionId participantId now : String) : DB :=
  { db with session_participants := db.session_participants.map (fun p =>
      if p.session_id == sessionId && p.participant_id == participantId then
        { p with status := "submitted", submitted_at := some now }
      else p) }

/-- The one-shot submission handler.  `contributionIds` are the generated
`contrib-${Date.now()}-...` ids, one per item; `now` is
`new Date().toISOString()`. -/
def submitAllContributions (db : DB) (sessionId participantId : String)
    (submissions : List Submission) (contributionIds : List String) (now : String) :
    SubmitResponse × DB :=
  if participantId = "" then
    (submitMissingFieldsResponse, db)
  else if submissions.length = 0 then
    (submitEmptyResponse, db)
  else
    match findSession db sessionId with
    | none => (submitSessionNotFoundResponse, db)
    | some session =>
      if session.session_state ≠ "published" ∧ session.session_state ≠ "contributing" then
        (submitInvalidStateResponse session.session_state, db)
      else
        match submitLoop sessionId participantId now db 0 (contributionIds.zip submissions) with
        | (dbAfter, _, some msg) =>
          if strIncludes msg "UNIQUE constraint failed" then
            (submitConflictResponse, dbAfter)
          else
            (submitStorageErrorResponse, dbAfter)
        | (dbAfter, saved, none) =>
          (submitSuccessResponse saved, markSubmitted dbAfter sessionId participantId now)

/-! ### GET /api/sessions/:sessionId/contributions (`backend/routes/contributions.js`)

The SQL query joins contributions with their topic, LEFT JOINs the author's
roster row for `display_name`, aggregates `COUNT(v.vote_id)` per contribution
and orders by `t.sort_order, c.submitted_at`; the response then groups the
rows by topic in first-occurrence order.
-/

/-- One element of a topic group's `history` array in the response. -/
structure HistoryEntry where
  id : String
  participantId : String
  author : String
  email : String
  currentStatus : String
  minorImpact : String
  disruption : String
  reimagination : String
  votes : Nat
  voters : List String
  submittedAt : String
deriving Repr, DecidableEq

/-- One element of the response's `contributions` array. -/
structure TopicGroup where
  id : String
  topic : String
  domain : String
  history : List HistoryEntry
deriving Repr, DecidableEq

/-- `ORDER BY t.sort_order, c.submitted_at` as a boolean comparison. -/
def joinedRowLE (a b : ContributionRow × TopicRow) : Bool :=
  a.2.sort_order < b.2.sort_order
    || (a.2.sort_order == b.2.sort_order && decide (a.1.submitted_at ≤ b.1.submitted_at))

/-- The response's history-entry mapping: `author` falls back to the
participant id when no roster row/display name exists, `email` is the
participant id itself, `voters` is the literal `[]`. -/
def mkHistoryEntry (db : DB) (sessionId : String) (c : ContributionRow) : HistoryEntry :=
  { id := c.contribution_id
    participantId := c.participant_id
    author :=
      match findParticipant db sessionId c.participant_id with
      | some p => if p.display_name = "" then c.participant_id else p.display_name
      | none => c.participant_id
    email := c.participant_id
    currentStatus := c.current_status
    minorImpact := c.minor_impact
    disruption := c.disruption
    reimagination := c.reimagination
    votes := countVotesFor db c.contribution_id
    voters := []
    submittedAt := c.submitted_at }

/-- Append an entry to its topic's group, creating the group on first
occurrence (the `topicsMap` object of the handler, whose key order is
insertion order). -/
def addEntry (groups : List TopicGroup) (t : TopicRow) (e : HistoryEntry) : List TopicGroup :=
  if groups.any (fun g => g.id == t.topic_id) then
    groups.map (fun g =>
      if g.id == t.topic_id then { g with history := g.history ++ [e] } else g)
  else
    groups ++ [{ id := t.topic_id, topic := t.topic_name, domain := t.domain, history := [e] }]

def groupRows : List TopicGroup → List (TopicRow × HistoryEntry) → List TopicGroup
  | acc, [] => acc
  | acc, (t, e) :: rest => groupRows (addEntry acc t e) rest

/-- The `contributions` array of the GET response: the contribution/topic
join, ordered by `(sort_order, submitted_at)`, mapped to history entries and
grouped by topic. -/
def getContributions (db : DB) (sessionId : String) : List TopicGroup :=
  groupRows []
    (((((db.contributions.filter (fun c => c.session_id == sessionId)).filterMap
        (fun c => (db.topics.find? (fun t => t.topic_id == c.topic_id)).map
          (fun t => (c, t)))).mergeSort joinedRowLE)).map
      (fun p => (p.2, mkHistoryEntry db sessionId p.1)))

/-! ### downloadReport (frontend `App.jsx`)

The report compiler maps each frontend row (a topic with its `history`
entries, the same shape the GET response produces) to a report topic, sorts
contributions by `(a, b) => b.votes - a.votes` and topics by
`(a, b) => b.totalVotes - a.totalVotes`.  JavaScript `Array.prototype.sort`
is stable, which `List.mergeSort` models exactly.
-/

/-- One contribution of the report payload: only these eight fields survive
the mapping (`id`, `participantId` and `voters` are dropped). -/
structure ReportContribution where
  author : String
  authorEmail : String
  currentStatus : String
  minorImpact : String
  disruption : String
  reimagination : String
  votes : Nat
  submittedAt : String
deriving Repr, DecidableEq

structure ReportTopic where
  domain : String
  topic : String
  totalVotes : Nat
  contributions : List ReportContribution
deriving Repr, DecidableEq

def toReportContribution (e : HistoryEntry) : ReportContribution :=
  { author := e.author
    authorEmail := e.email
    currentStatus := e.currentStatus
    minorImpact := e.minorImpact
    disruption := e.disruption
    reimagination := e.reimagination
    votes := e.votes
    submittedAt := e.submittedAt }

/-- The comparator `(a, b) => b.votes - a.votes` as the "keep `a` before `b`"
test of a stable sort. -/
def contributionLE (a b : ReportContribution) : Bool :=
  decide (b.votes ≤ a.votes)

/-- The comparator `(a, b) => b.totalVotes - a.totalVotes`. -/
def topicLE (a b : ReportTopic) : Bool :=
  decide (b.totalVotes ≤ a.totalVotes)

/-- One row of the report's `topics` array, before the topic-level sort:
`totalVotes` is the reduce-sum of the contributions' votes and the
contributions are sorted by votes descending. -/
def reportTopicOfRow (row : TopicGroup) : ReportTopic :=
  let contributions := row.history.map toReportContribution
  { domain := row.domain
    topic := row.topic
    totalVotes := (contributions.map (fun c => c.votes)).sum
    contributions := contributions.mergeSort contributionLE }

/-- The report's `topics` array: rows mapped then sorted by total votes
descending. -/
def downloadReportTopics (rows : List TopicGroup) : List ReportTopic :=
  (rows.map reportTopicOfRow).mergeSort topicLE

/-- Blank out the fields of a listing entry that carry identity beyond the
display name: the contribution id, the author's participant id and the
voters list. -/
def scrubEntry (e : HistoryEntry) : HistoryEntry :=
  { e with id := "", participantId := "", voters := [] }

def scrubRow (r : TopicGroup) : TopicGroup :=
  { r with history := r.history.map scrubEntry }

/-! ### Concrete fixtures used by counterexamples and witnesses -/

/-- A one-session store whose session is in the given state. -/
def exSession (st : String) : SessionRow :=
  { session_id := "s1", name := "T1", moderator_id := "mod@x.com",
    session_state := st, created_at := "2024-01-01T00:00:00Z" }

def exTopic1 : TopicRow :=
  { topic_id := "t1", session_id := "s1", domain := "Finance",
    topic_name := "Fraud", sort_order := 0 }

def exTopic2 : TopicRow :=
  { topic_id := "t2", session_id := "s1", domain := "Health",
    topic_name := "Care", sort_order := 1 }

def exAlice : ParticipantRow :=
  { session_id := "s1", participant_id := "alice@x.com", display_name := "Alice",
    email := "alice@x.com", status := "submitted",
    joined_at := "2024-01-01T01:00:00Z", submitted_at := some "2024-01-01T02:00:00Z" }

def exBob : ParticipantRow :=
  { session_id := "s1", participant_id := "bob@x.com", display_name := "Bob",
    email := "bob@x.com", status := "joined",
    joined_at := "2024-01-01T01:30:00Z", submitted_at := none }

/-- A contribution by Alice on topic `t1`. -/
def exContribution : ContributionRow :=
  { contribution_id := "c1", session_id := "s1", topic_id := "t1",
    participant_id := "alice@x.com", current_status := "A", minor_impact := "B",
    disruption := "C", reimagination := "D", submitted_at := "2024-01-01T02:00:00Z" }

/-- An existing contribution by Alice on topic `t2` whose id `c-dup` a later
generated id can collide with. -/
def exContributionT2 : ContributionRow :=
  { contribution_id := "c-dup", session_id := "s1", topic_id := "t2",
    participant_id := "alice@x.com", current_status := "A2", minor_impact := "",
    disruption := "", reimagination := "", submitted_at := "2024-01-01T02:00:00Z" }

/-- A vote by Bob on `c1`. -/
def exVote : VoteRow :=
  { vote_id := "v1", contribution_id := "c1", voter_id := "bob@x.com",
    voted_at := "2024-01-01T03:00:00Z" }

def exDb (st : String) : DB :=
  { sessions := [exSession st], topics := [exTopic1, exTopic2],
    session_participants := [exAlice, exBob],
    contributions := [exContribution], votes := [] }

/-- Store for the non-atomic-batch failing input: session `contributing`,
Bob joined but not submitted, Alice's `t2` row occupying id `c-dup`. -/
def exDbBatch : DB :=
  { sessions := [exSession "contributing"], topics := [exTopic1, exTopic2],
    session_participants := [exAlice, exBob],
    contributions := [exContributionT2], votes := [] }

def exSub1 : Submission :=
  { rowId := "t1", currentStatus := "B1", minorImpact := "", disruption := "",
    reimagination := "", submittedAt := "2024-01-02T00:00:00Z" }

def exSub2 : Submission :=
  { rowId := "t2", currentStatus := "B2", minorImpact := "", disruption := "",
    reimagination := "", submittedAt := "2024-01-02T00:00:00Z" }

/-- Voting-phase store in which Bob has already voted on `c1`. -/
def exDbVoted : DB :=
  { exDb "voting" with votes := [exVote] }

/-- Voting-phase store in which the contribution's own author Alice somehow
already has a vote row on `c1`, so the self-vote and the duplicate check
would both fail. -/
def exDbSelfAndDup : DB :=
  { exDb "voting" with votes :=
      [{ vote_id := "v9", contribution_id := "c1", voter_id := "alice@x.com",
         voted_at := "2024-01-01T03:00:00Z" }] }

/-- The store invariant backed by `UNIQUE(session_id, topic_id, participant_id)`:
no two contribution rows share their (session, topic, participant) triple. -/
def tripleUnique (db : DB) : Prop :=
  db.contributions.Pairwise (fun a b =>
    ¬(a.session_id = b.session_id ∧ a.topic_id = b.topic_id
        ∧ a.participant_id = b.participant_id))

/-- The store invariant backed by `UNIQUE(contribution_id, voter_id)`:
no two vote rows share their (contribution, voter) pair. -/
def votePairsUnique (db : DB) : Prop :=
  db.votes.Pairwise (fun v w =>
    ¬(v.contribution_id = w.contribution_id ∧ v.voter_id = w.voter_id))

/-- A bare frontend history entry carrying only votes and a timestamp. -/
def exEntry (v : Nat) (ts : String) : HistoryEntry :=
  { id := "", participantId := "", author := "", email := "", currentStatus := "",
    minorImpact := "", disruption := "", reimagination := "", votes := v,
    voters := [], submittedAt := ts }

/-- Three single-contribution topics with total votes 15, 30 and 5. -/
def exRowsTopics : List TopicGroup :=
  [{ id := "r1", topic := "T1", domain := "D", history := [exEntry 15 "a"] },
   { id := "r2", topic := "T2", domain := "D", history := [exEntry 30 "a"] },
   { id := "r3", topic := "T3", domain := "D", history := [exEntry 5 "a"] }]

/-- One topic whose contributions carry 3, 10 and 5 votes. -/
def exRowContribs : List TopicGroup :=
  [{ id := "r1", topic := "T1", domain := "D",
     history := [exEntry 3 "a", exEntry 10 "b", exEntry 5 "c"] }]

/-! ## Theorems -/

/-- `find?` by session id after mapping the state update over the list:
the first match is the old first match with its state replaced. -/
theorem find?_session_update {l : List SessionRow} {sid st : String} {s : SessionRow}
    (h : l.find? (fun r => r.session_id == sid) = some s) :
    (l.map (fun r => if r.session_id == sid then { r with session_state := st } else r)).find?
      (fun r => r.session_id == sid) = some { s with session_state := st } := by
  induction l with
  | nil => simp at h
  | cons a l ih =>
    cases hb : (a.session_id == sid) with
    | true =>
      simp only [List.find?_cons, hb] at h
      cases h
      simp only [List.map_cons, hb, if_true, List.find?_cons]
    | false =>
      simp only [List.find?_cons, hb] at h
      simp only [List.map_cons, hb, if_false, List.find?_cons]
      simpa [hb] using ih h

/-- C10: `setState` enforces no transition ordering: for every existing
session and every one of the six known labels it succeeds from any current
state and stores exactly the requested label; a label outside the six is
rejected before any write with the store unchanged; and every response is
one of success, invalid-label or session-not-found, so no `InvalidTransition`
error is ever produced. -/
theorem setState_accepts_any_transition :
    (∀ (db : DB) (sessionId state : String) (s : SessionRow),
        validStates.contains state →
        findSession db sessionId = some s →
        (setState db sessionId state).1 = stateOkResponse state ∧
          findSession (setState db sessionId state).2 sessionId
            = some { s with session_state := state }) ∧
    (∀ (db : DB) (sessionId state : String),
        ¬ validStates.contains state →
        setState db sessionId state = (invalidStateResponse, db)) ∧
    (∀ (db : DB) (sessionId state : String),
        (setState db sessionId state).1 = stateOkResponse state ∨
          (setState db sessionId state).1 = invalidStateResponse ∨
          (setState db sessionId state).1 = stateSessionNotFoundResponse) := by
  refine ⟨?_, ?_, ?_⟩
  · intro db sessionId state s hmem hfind
    have hifc : ¬(state = "" ∨ ¬ (validStates.contains state = true)) := by
      rintro (rfl | hc)
      · simp [validStates] at hmem
      · exact hc hmem
    unfold setState
    rw [if_neg hifc, hfind]
    exact ⟨rfl, find?_session_update hfind⟩
  · intro db sessionId state hmem
    unfold setState
    rw [if_pos (Or.inr hmem)]
  · intro db sessionId state
    unfold setState
    by_cases h1 : state = "" ∨ ¬ (validStates.contains state = true)
    · rw [if_pos h1]; exact Or.inr (Or.inl rfl)
    · rw [if_neg h1]
      cases hf : findSession db sessionId with
      | none => exact Or.inr (Or.inr rfl)
      | some s => exact Or.inl rfl

/-- C10 witness: a backward jump from `final` to `setup` succeeds and is
stored, and the unknown label `bogus` is rejected with the store unchanged. -/
theorem setState_accepts_any_transition_spot :
    (setState (exDb "final") "s1" "setup").1 = stateOkResponse "setup" ∧
    findSession (setState (exDb "final") "s1" "setup").2 "s1" = some (exSession "setup") ∧
    setState (exDb "setup") "s1" "bogus" = (invalidStateResponse, exDb "setup") := by
  obtain ⟨h1, h2⟩ := setState_accepts_any_transition.1 (exDb "final") "s1" "setup"
    (exSession "final") (by decide) (by rfl)
  exact ⟨h1, h2, setState_accepts_any_transition.2.1 (exDb "setup") "s1" "bogus" (by decide)⟩

/-- C3 counterexample: the state handler reads no caller identity at all —
its request body is just the label — so the very same call is what a
non-moderator caller issues.  On a concrete store moderated by
`mod@x.com`, that call succeeds (no `NotAuthorized` failure) and the stored
session state changes from `setup` to `voting`, contradicting "fails with
NotAuthorized and leaves the session state unchanged". -/
theorem setState_changes_state_for_any_caller :
    (exSession "setup").moderator_id = "mod@x.com" ∧
    (setState (exDb "setup") "s1" "voting").1 = stateOkResponse "voting" ∧
    findSession (setState (exDb "setup") "s1" "voting").2 "s1" = some (exSession "voting") := by
  refine ⟨rfl, rfl, ?_⟩
  rfl

/-- C3 amended: `setState` performs no moderator verification.  The request
carries no caller identity, the update succeeds for any existing session and
known label no matter who calls, and the handler can only answer 200, 400
(unknown label) or 404 (missing session) — in particular it never answers
403 `NotAuthorized`. -/
theorem setState_no_moderator_gate :
    (∀ (db : DB) (sessionId state : String) (s : SessionRow),
        validStates.contains state →
        findSession db sessionId = some s →
        (setState db sessionId state).1 = stateOkResponse state) ∧
    (∀ (db : DB) (sessionId state : String),
        (setState db sessionId state).1.status = 200 ∨
          (setState db sessionId state).1.status = 400 ∨
          (setState db sessionId state).1.status = 404) ∧
    (∀ (db : DB) (sessionId state : String),
        (setState db sessionId state).1.status ≠ 403) := by
  have henum : ∀ (db : DB) (sessionId state : String),
      (setState db sessionId state).1.status = 200 ∨
        (setState db sessionId state).1.status = 400 ∨
        (setState db sessionId state).1.status = 404 := by
    intro db sessionId state
    unfold setState
    by_cases h1 : state = "" ∨ ¬ (validStates.contains state = true)
    · rw [if_pos h1]; exact Or.inr (Or.inl rfl)
    · rw [if_neg h1]
      cases hf : findSession db sessionId with
      | none => exact Or.inr (Or.inr rfl)
      | some s => exact Or.inl rfl
  refine ⟨?_, henum, ?_⟩
  · intro db sessionId state s hmem hfind
    have hifc : ¬(state = "" ∨ ¬ (validStates.contains state = true)) := by
      rintro (rfl | hc)
      · simp [validStates] at hmem
      · exact hc hmem
    unfold setState
    rw [if_neg hifc, hfind]
  · intro db sessionId state
    rcases henum db sessionId state with h | h | h <;> omega

/-- C3 amended witness: on a concrete store, a state change succeeds without
any caller check and the response status is never 403. -/
theorem setState_no_moderator_gate_spot :
    (setState (exDb "voting") "s1" "final").1 = stateOkResponse "final" ∧
    (setState (exDb "voting") "s1" "final").1.status ≠ 403 :=
  ⟨setState_no_moderator_gate.1 (exDb "voting") "s1" "final" (exSession "voting")
      (by decide) (by rfl),
    setState_no_moderator_gate.2.2 (exDb "voting") "s1" "final"⟩

/-- C9: state gating.  `castVote` fails with `VotingNotEnabled` (and stores
nothing) whenever the session state is any string other than `voting`, and
`submitAllContributions` fails with `InvalidSessionState` (and stores
nothing) whenever the state is neither `published` nor `contributing`;
the field-validation and session-existence checks that run first are taken
as hypotheses. -/
theorem state_gating :
    (∀ (db : DB) (sessionId contributionId voterId voteId votedAt : String) (s : SessionRow),
        contributionId ≠ "" → voterId ≠ "" →
        findSession db sessionId = some s →
        s.session_state ≠ "voting" →
        castVote db sessionId contributionId voterId voteId votedAt
          = (votingNotEnabledResponse s.session_state, db)) ∧
    (∀ (db : DB) (sessionId participantId : String) (submissions : List Submission)
        (contributionIds : List String) (now : String) (s : SessionRow),
        participantId ≠ "" → submissions ≠ [] →
        findSession db sessionId = some s →
        s.session_state ≠ "published" → s.session_state ≠ "contributing" →
        submitAllContributions db sessionId participantId submissions contributionIds now
          = (submitInvalidStateResponse s.session_state, db)) := by
  constructor
  · intro db sessionId contributionId voterId voteId votedAt s h1 h2 hfind hst
    simp [castVote, castVoteWith, h1, h2, hfind, hst]
  · intro db sessionId participantId submissions contributionIds now s h1 h2 hfind hp hc
    simp [submitAllContributions, h1, h2, List.length_eq_zero, hfind, hp, hc]

/-- C9 witness: with the session in `setup`, Bob's vote on `c1` is refused
with the `VotingNotEnabled` message naming `setup` and the store is
untouched; with the session in `voting`, Bob's batch submission is refused
with the `InvalidSessionState` message naming `voting` and the store is
untouched. -/
theorem state_gating_spot :
    castVote (exDb "setup") "s1" "c1" "bob@x.com" "v2" "2024-01-01T04:00:00Z"
      = (votingNotEnabledResponse "setup", exDb "setup") ∧
    submitAllContributions (exDb "voting") "s1" "bob@x.com" [exSub1] ["c9"] "2024-01-02T00:00:00Z"
      = (submitInvalidStateResponse "voting", exDb "voting") :=
  ⟨state_gating.1 (exDb "setup") "s1" "c1" "bob@x.com" "v2" "2024-01-01T04:00:00Z"
      (exSession "setup") (by decide) (by decide) (by rfl) (by decide),
    state_gating.2 (exDb "voting") "s1" "bob@x.com" [exSub1] ["c9"] "2024-01-02T00:00:00Z"
      (exSession "voting") (by decide) (by decide) (by rfl) (by decide) (by decide)⟩

/-- C4: the vote handler evaluates its preconditions in exactly the order
session-exists, state-is-voting, contribution-exists, not-self-vote,
no-existing-vote, and the first failing check fixes the response; each part
quantifies over every store, so it holds in particular when later checks
would also fail. -/
theorem castVote_precondition_order :
    (∀ (db : DB) (sessionId contributionId voterId voteId votedAt : String),
        contributionId ≠ "" → voterId ≠ "" →
        findSession db sessionId = none →
        castVote db sessionId contributionId voterId voteId votedAt
          = (voteSessionNotFoundResponse, db)) ∧
    (∀ (db : DB) (sessionId contributionId voterId voteId votedAt : String) (s : SessionRow),
        contributionId ≠ "" → voterId ≠ "" →
        findSession db sessionId = some s →
        s.session_state ≠ "voting" →
        castVote db sessionId contributionId voterId voteId votedAt
          = (votingNotEnabledResponse s.session_state, db)) ∧
    (∀ (db : DB) (sessionId contributionId voterId voteId votedAt : String) (s : SessionRow),
        contributionId ≠ "" → voterId ≠ "" →
        findSession db sessionId = some s →
        s.session_state = "voting" →
        findContribution db contributionId sessionId = none →
        castVote db sessionId contributionId voterId voteId votedAt
          = (contributionNotFoundResponse, db)) ∧
    (∀ (db : DB) (sessionId contributionId voterId voteId votedAt : String)
        (s : SessionRow) (c : ContributionRow),
        contributionId ≠ "" → voterId ≠ "" →
        findSession db sessionId = some s →
        s.session_state = "voting" →
        findContribution db contributionId sessionId = some c →
        c.participant_id = voterId →
        castVote db sessionId contributionId voterId voteId votedAt
          = (selfVoteResponse, db)) ∧
    (∀ (db : DB) (sessionId contributionId voterId voteId votedAt : String)
        (s : SessionRow) (c : ContributionRow) (w : VoteRow),
        contributionId ≠ "" → voterId ≠ "" →
        findSession db sessionId = some s →
        s.session_state = "voting" →
        findContribution db contributionId sessionId = some c →
        c.participant_id ≠ voterId →
        findVote db contributionId voterId = some w →
        castVote db sessionId contributionId voterId voteId votedAt
          = (duplicateVoteResponse, db)) := by
  refine ⟨?_, ?_, ?_, ?_, ?_⟩
  · intro db sessionId contributionId voterId voteId votedAt h1 h2 hfind
    simp [castVote, castVoteWith, h1, h2, hfind]
  · intro db sessionId contributionId voterId voteId votedAt s h1 h2 hfind hst
    simp [castVote, castVoteWith, h1, h2, hfind, hst]
  · intro db sessionId contributionId voterId voteId votedAt s h1 h2 hfind hst hco
    simp [castVote, castVoteWith, h1, h2, hfind, hst, hco]
  · intro db sessionId contributionId voterId voteId votedAt s c h1 h2 hfind hst hco hself
    simp [castVote, castVoteWith, h1, h2, hfind, hst, hco, hself]
  · intro db sessionId contributionId voterId voteId votedAt s c w h1 h2 hfind hst hco hself hdup
    simp [castVote, castVoteWith, h1, h2, hfind, hst, hco, hself, hdup]

/-- C4 witness, one concrete store per precondition: an unknown session; a
`setup`-state session; a missing contribution; Alice voting on her own
contribution (in a store where the duplicate check would also fail, yet the
self-vote failure is reported); and Bob voting a second time. -/
theorem castVote_precondition_order_spot :
    castVote (exDb "voting") "nope" "c1" "bob@x.com" "v2" "t"
      = (voteSessionNotFoundResponse, exDb "voting") ∧
    castVote (exDb "published") "s1" "c1" "bob@x.com" "v2" "t"
      = (votingNotEnabledResponse "published", exDb "published") ∧
    castVote (exDb "voting") "s1" "zzz" "bob@x.com" "v2" "t"
      = (contributionNotFoundResponse, exDb "voting") ∧
    castVote exDbSelfAndDup "s1" "c1" "alice@x.com" "v2" "t"
      = (selfVoteResponse, exDbSelfAndDup) ∧
    castVote exDbVoted "s1" "c1" "bob@x.com" "v2" "t"
      = (duplicateVoteResponse, exDbVoted) :=
  ⟨castVote_precondition_order.1 (exDb "voting") "nope" "c1" "bob@x.com" "v2" "t"
      (by decide) (by decide) (by rfl),
    castVote_precondition_order.2.1 (exDb "published") "s1" "c1" "bob@x.com" "v2" "t"
      (exSession "published") (by decide) (by decide) (by rfl) (by decide),
    castVote_precondition_order.2.2.1 (exDb "voting") "s1" "zzz" "bob@x.com" "v2" "t"
      (exSession "voting") (by decide) (by decide) (by rfl) (by decide) (by rfl),
    castVote_precondition_order.2.2.2.1 exDbSelfAndDup "s1" "c1" "alice@x.com" "v2" "t"
      (exSession "voting") exContribution (by decide) (by decide) (by rfl) (by decide)
      (by rfl) (by decide),
    castVote_precondition_order.2.2.2.2 exDbVoted "s1" "c1" "bob@x.com" "v2" "t"
      (exSession "voting") exContribution exVote (by decide) (by decide) (by rfl)
      (by decide) (by rfl) (by decide) (by rfl)⟩

/-- `find?` skips a prefix with no match. -/
theorem find?_append_none {α : Type} {p : α → Bool} {l₁ l₂ : List α}
    (h : l₁.find? p = none) : (l₁ ++ l₂).find? p = l₂.find? p := by
  induction l₁ with
  | nil => rfl
  | cons a l ih =>
    rw [List.find?_cons] at h
    cases hb : p a with
    | true => rw [hb] at h; cases h
    | false =>
      rw [hb] at h
      simp only [List.cons_append, List.find?_cons, hb]
      exact ih h

/-- An empty roster filter means the roster lookup finds nothing. -/
theorem findParticipant_eq_none {db : DB} {sessionId participantId : String}
    (h : rosterRows db sessionId participantId = []) :
    findParticipant db sessionId participantId = none := by
  unfold rosterRows at h
  unfold findParticipant
  rw [List.find?_eq_none]
  intro x hx
  have hall := List.filter_eq_nil_iff.mp h
  simpa using hall x hx

/-- C8: join is idempotent and rejected only once the session is `final`.
On a session in any non-`final` state with no roster row for the
participant, the first join answers 201 and leaves exactly one roster row
for the pair, and a second join with the same participant id answers 200
success with the store — hence the stored record — completely unchanged;
on a `final` session every join answers the `SessionFinalized` failure and
adds no roster row. -/
theorem join_idempotent :
    (∀ (db : DB) (sessionId participantId dn em t1 dn2 em2 t2 : String) (s : SessionRow),
        participantId ≠ "" →
        findSession db sessionId = some s →
        s.session_state ≠ "final" →
        rosterRows db sessionId participantId = [] →
        (joinSession db sessionId participantId dn em t1).1 = joinedResponse ∧
        (rosterRows (joinSession db sessionId participantId dn em t1).2
            sessionId participantId).length = 1 ∧
        joinSession (joinSession db sessionId participantId dn em t1).2
            sessionId participantId dn2 em2 t2
          = (alreadyJoinedResponse, (joinSession db sessionId participantId dn em t1).2)) ∧
    (∀ (db : DB) (sessionId participantId dn em now : String) (s : SessionRow),
        participantId ≠ "" →
        findSession db sessionId = some s →
        s.session_state = "final" →
        joinSession db sessionId participantId dn em now = (sessionFinalizedResponse, db)) := by
  constructor
  · intro db sessionId participantId dn em t1 dn2 em2 t2 s h1 hfind hst hroster
    have hpnone : findParticipant db sessionId participantId = none :=
      findParticipant_eq_none hroster
    have e1 : joinSession db sessionId participantId dn em t1 =
        (joinedResponse,
          { db with session_participants := db.session_participants ++
              [newParticipantRow sessionId participantId dn em t1] }) := by
      simp [joinSession, h1, hfind, hst, hpnone]
    have hroster' : db.session_participants.filter
        (fun p => p.session_id == sessionId && p.participant_id == participantId) = [] :=
      hroster
    have hfnone : db.session_participants.find?
        (fun p => p.session_id == sessionId && p.participant_id == participantId) = none :=
      hpnone
    rw [e1]
    refine ⟨rfl, ?_, ?_⟩
    · show ((db.session_participants ++
          [newParticipantRow sessionId participantId dn em t1]).filter
            (fun p => p.session_id == sessionId && p.participant_id == participantId)).length = 1
      rw [List.filter_append, hroster']
      simp [newParticipantRow]
    · have hfind1 : findSession
          { db with session_participants := db.session_participants ++
              [newParticipantRow sessionId participantId dn em t1] } sessionId = some s := hfind
      have hpart1 : findParticipant
          { db with session_participants := db.session_participants ++
              [newParticipantRow sessionId participantId dn em t1] } sessionId participantId
          = some (newParticipantRow sessionId participantId dn em t1) := by
        show (db.session_participants ++
            [newParticipantRow sessionId participantId dn em t1]).find?
              (fun p => p.session_id == sessionId && p.participant_id == participantId)
            = some (newParticipantRow sessionId participantId dn em t1)
        rw [find?_append_none hfnone]
        simp [newParticipantRow]
      simp [joinSession, h1, hfind1, hst, hpart1]
  · intro db sessionId participantId dn em now s h1 hfind hst
    simp [joinSession, h1, hfind, hst]

/-- C8 witness: Carol joins the published session once (201, one roster
row), her second join answers 200 with the store unchanged, and joining the
finalized session is refused. -/
theorem join_idempotent_spot :
    (joinSession (exDb "published") "s1" "carol@x.com" "Carol" "carol@x.com" "t1").1
      = joinedResponse ∧
    (rosterRows (joinSession (exDb "published") "s1" "carol@x.com" "Carol" "carol@x.com" "t1").2
        "s1" "carol@x.com").length = 1 ∧
    joinSession (joinSession (exDb "published") "s1" "carol@x.com" "Carol" "carol@x.com" "t1").2
        "s1" "carol@x.com" "Carol" "carol@x.com" "t2"
      = (alreadyJoinedResponse,
          (joinSession (exDb "published") "s1" "carol@x.com" "Carol" "carol@x.com" "t1").2) ∧
    joinSession (exDb "final") "s1" "carol@x.com" "Carol" "carol@x.com" "t3"
      = (sessionFinalizedResponse, exDb "final") := by
  obtain ⟨a, b, c⟩ := join_idempotent.1 (exDb "published") "s1" "carol@x.com" "Carol"
    "carol@x.com" "t1" "Carol" "carol@x.com" "t2" (exSession "published")
    (by decide) (by rfl) (by decide) (by decide)
  exact ⟨a, b, c, join_idempotent.2 (exDb "final") "s1" "carol@x.com" "Carol" "carol@x.com"
    "t3" (exSession "final") (by decide) (by rfl) (by decide)⟩

theorem strIncludes_pk :
    strIncludes "UNIQUE constraint failed: votes.vote_id" "UNIQUE constraint failed" = true := by
  decide

theorem strIncludes_pair :
    strIncludes "UNIQUE constraint failed: votes.contribution_id, votes.voter_id"
      "UNIQUE constraint failed" = true := by
  decide

/-- A successful `insertVote` preserves pair uniqueness: the insert is only
taken when no row with the same (contribution, voter) pair exists. -/
theorem votePairsUnique_insertVote {db db' : DB} {v : VoteRow}
    (hu : votePairsUnique db) (h : insertVote db v = Except.ok db') :
    votePairsUnique db' := by
  unfold insertVote at h
  cases hpk : db.votes.any (fun w => w.vote_id == v.vote_id) with
  | true => simp [hpk] at h
  | false =>
    cases hpair : db.votes.any (fun w =>
        w.contribution_id == v.contribution_id && w.voter_id == v.voter_id) with
    | true => simp [hpk, hpair] at h
    | false =>
      simp only [hpk, hpair, Bool.false_eq_true, if_false, Except.ok.injEq] at h
      subst h
      unfold votePairsUnique
      rw [List.pairwise_append]
      refine ⟨hu, List.pairwise_singleton _ _, ?_⟩
      intro a ha b hb
      rw [List.mem_singleton] at hb
      subst hb
      intro hcontra
      exact (List.any_eq_false.mp hpair a ha) (by simp [hcontra.1, hcontra.2])

/-- The write side of the vote handler either leaves the store alone or is a
successful `insertVote`. -/
theorem castVoteWith_snd (dbCheck dbWrite : DB)
    (sessionId contributionId voterId voteId votedAt : String) :
    (castVoteWith dbCheck dbWrite sessionId contributionId voterId voteId votedAt).2 = dbWrite ∨
      ∃ db', insertVote dbWrite ⟨voteId, contributionId, voterId, votedAt⟩ = Except.ok db' ∧
        (castVoteWith dbCheck dbWrite sessionId contributionId voterId voteId votedAt).2 = db' := by
  unfold castVoteWith
  repeat' split
  all_goals try exact Or.inl rfl
  rename_i db' heq
  exact Or.inr ⟨db', heq, rfl⟩

/-- C2: vote exactly-once.  (a) Whatever snapshot the precondition checks
read, the store after a vote call still has at most one row per
(contribution, voter) pair.  (b) A call that raced past the application
duplicate-check read (its read snapshot had no vote row, but the store the
insert runs against does) fails with the translated `DuplicateVote`
response — not a generic storage error — and writes nothing.  (c) Run
sequentially, the first vote succeeds with the live count including it and
an immediate identical retry fails with `DuplicateVote`. -/
theorem vote_exactly_once :
    (∀ (dbCheck dbWrite : DB) (sessionId contributionId voterId voteId votedAt : String),
        votePairsUnique dbWrite →
        votePairsUnique
          (castVoteWith dbCheck dbWrite sessionId contributionId voterId voteId votedAt).2) ∧
    (∀ (dbCheck dbWrite : DB) (sessionId contributionId voterId voteId votedAt : String)
        (s : SessionRow) (c : ContributionRow) (w : VoteRow),
        contributionId ≠ "" → voterId ≠ "" →
        findSession dbCheck sessionId = some s →
        s.session_state = "voting" →
        findContribution dbCheck contributionId sessionId = some c →
        c.participant_id ≠ voterId →
        findVote dbCheck contributionId voterId = none →
        findVote dbWrite contributionId voterId = some w →
        castVoteWith dbCheck dbWrite sessionId contributionId voterId voteId votedAt
          = (duplicateVoteResponse, dbWrite)) ∧
    (∀ (db : DB) (sessionId contributionId voterId voteId votedAt voteId2 votedAt2 : String)
        (s : SessionRow) (c : ContributionRow),
        contributionId ≠ "" → voterId ≠ "" →
        findSession db sessionId = some s →
        s.session_state = "voting" →
        findContribution db contributionId sessionId = some c →
        c.participant_id ≠ voterId →
        findVote db contributionId voterId = none →
        db.votes.any (fun x => x.vote_id == voteId) = false →
        castVote db sessionId contributionId voterId voteId votedAt
          = (voteSuccessResponse (countVotesFor db contributionId + 1),
              { db with votes := db.votes ++ [⟨voteId, contributionId, voterId, votedAt⟩] }) ∧
        castVote { db with votes := db.votes ++ [⟨voteId, contributionId, voterId, votedAt⟩] }
            sessionId contributionId voterId voteId2 votedAt2
          = (duplicateVoteResponse,
              { db with votes := db.votes ++ [⟨voteId, contributionId, voterId, votedAt⟩] })) := by
  refine ⟨?_, ?_, ?_⟩
  · intro dbCheck dbWrite sessionId contributionId voterId voteId votedAt hu
    rcases castVoteWith_snd dbCheck dbWrite sessionId contributionId voterId voteId votedAt with
      h | ⟨db', hins, h⟩
    · rw [h]; exact hu
    · rw [h]; exact votePairsUnique_insertVote hu hins
  · intro dbCheck dbWrite sessionId contributionId voterId voteId votedAt s c w
      h1 h2 hfind hst hco hself hnone hsome
    have hmem := List.mem_of_find?_eq_some hsome
    have hpw := List.find?_some hsome
    simp only [castVoteWith, h1, h2, or_self, if_false, hfind, hst, ne_eq,
      not_true_eq_false, if_neg, hco, hself, if_false, hnone]
    unfold insertVote
    cases hpk : dbWrite.votes.any (fun x => x.vote_id == voteId) with
    | true => simp [h1, h2, hfind, hst, hco, hself, hnone, hpk, strIncludes_pk]
    | false =>
      have hpair : dbWrite.votes.any (fun x =>
          x.contribution_id == contributionId && x.voter_id == voterId) = true :=
        List.any_eq_true.mpr ⟨w, hmem, hpw⟩
      simp [h1, h2, hfind, hst, hco, hself, hnone, hpk, hpair, strIncludes_pair]
  · intro db sessionId contributionId voterId voteId votedAt voteId2 votedAt2 s c
      h1 h2 hfind hst hco hself hnone hpk
    have hfnone : db.votes.find?
        (fun v => v.contribution_id == contributionId && v.voter_id == voterId) = none :=
      hnone
    have hpair : db.votes.any (fun x =>
        x.contribution_id == contributionId && x.voter_id == voterId) = false := by
      rw [List.any_eq_false]
      intro x hx
      have := List.find?_eq_none.mp hfnone x hx
      simpa using this
    constructor
    · simp [castVote, castVoteWith, h1, h2, hfind, hst, hco, hself, hnone, insertVote,
        hpk, hpair, countVotesFor, List.filter_append]
    · have hfind1 : findSession
          { db with votes := db.votes ++ [⟨voteId, contributionId, voterId, votedAt⟩] }
          sessionId = some s := hfind
      have hco1 : findContribution
          { db with votes := db.votes ++ [⟨voteId, contributionId, voterId, votedAt⟩] }
          contributionId sessionId = some c := hco
      have hvote1 : findVote
          { db with votes := db.votes ++ [⟨voteId, contributionId, voterId, votedAt⟩] }
          contributionId voterId = some ⟨voteId, contributionId, voterId, votedAt⟩ := by
        show (db.votes ++ [(⟨voteId, contributionId, voterId, votedAt⟩ : VoteRow)]).find?
            (fun v => v.contribution_id == contributionId && v.voter_id == voterId)
          = some ⟨voteId, contributionId, voterId, votedAt⟩
        rw [find?_append_none hfnone]
        simp
      simp [castVote, castVoteWith, h1, h2, hfind1, hst, hco1, hself, hvote1]

/-- C2 witness: on the voting-phase store, the racing call whose read
snapshot predates Bob's committed vote is refused with `DuplicateVote`; on
the vote-free store, Bob's first vote succeeds with count 1 and his retry
is refused with `DuplicateVote`. -/
theorem vote_exactly_once_spot :
    castVoteWith (exDb "voting") exDbVoted "s1" "c1" "bob@x.com" "v2" "t"
      = (duplicateVoteResponse, exDbVoted) ∧
    castVote (exDb "voting") "s1" "c1" "bob@x.com" "v1" "2024-01-01T03:00:00Z"
      = (voteSuccessResponse 1, exDbVoted) ∧
    castVote exDbVoted "s1" "c1" "bob@x.com" "v2" "t"
      = (duplicateVoteResponse, exDbVoted) := by
  have h2 := vote_exactly_once.2.1 (exDb "voting") exDbVoted "s1" "c1" "bob@x.com" "v2" "t"
    (exSession "voting") exContribution exVote (by decide) (by decide) (by rfl) (by decide)
    (by rfl) (by decide) (by rfl) (by rfl)
  have h3 := vote_exactly_once.2.2 (exDb "voting") "s1" "c1" "bob@x.com" "v1"
    "2024-01-01T03:00:00Z" "v2" "t" (exSession "voting") exContribution (by decide) (by decide)
    (by rfl) (by decide) (by rfl) (by decide) (by rfl) (by rfl)
  refine ⟨h2, ?_, ?_⟩
  · have := h3.1
    simpa [exDbVoted, exDb, exVote, countVotesFor] using this
  · have := h3.2
    simpa [exDbVoted, exDb, exVote] using this

/-- The `DO UPDATE SET` clause never touches a row's (session, topic,
participant) triple. -/
theorem upsertContent_keeps_triple (c r : ContributionRow) :
    (upsertContent c r).session_id = r.session_id ∧
      (upsertContent c r).topic_id = r.topic_id ∧
      (upsertContent c r).participant_id = r.participant_id := by
  unfold upsertContent
  split <;> exact ⟨rfl, rfl, rfl⟩

/-- A successful contribution upsert preserves triple uniqueness. -/
theorem tripleUnique_insertContribution {db db' : DB} {c : ContributionRow}
    (hu : tripleUnique db) (h : insertContribution db c = Except.ok db') :
    tripleUnique db' := by
  unfold insertContribution at h
  cases htrip : db.contributions.any (fun r =>
      r.session_id == c.session_id && r.topic_id == c.topic_id
        && r.participant_id == c.participant_id) with
  | true =>
    rw [if_pos htrip] at h
    cases hcoll : db.contributions.any (fun r =>
        r.contribution_id == c.contribution_id
          && !(r.session_id == c.session_id && r.topic_id == c.topic_id
            && r.participant_id == c.participant_id)) with
    | true =>
      rw [if_pos hcoll] at h
      exact Except.noConfusion h
    | false =>
      rw [if_neg (by rw [hcoll]; simp)] at h
      rw [Except.ok.injEq] at h
      subst h
      refine List.pairwise_map.mpr (hu.imp ?_)
      intro a b hab hcontra
      apply hab
      obtain ⟨ea1, ea2, ea3⟩ := upsertContent_keeps_triple c a
      obtain ⟨eb1, eb2, eb3⟩ := upsertContent_keeps_triple c b
      rw [ea1, ea2, ea3, eb1, eb2, eb3] at hcontra
      exact hcontra
  | false =>
    rw [if_neg (by rw [htrip]; simp)] at h
    cases hpk : db.contributions.any (fun r => r.contribution_id == c.contribution_id) with
    | true =>
      rw [if_pos hpk] at h
      exact Except.noConfusion h
    | false =>
      rw [if_neg (by rw [hpk]; simp)] at h
      rw [Except.ok.injEq] at h
      subst h
      unfold tripleUnique
      rw [List.pairwise_append]
      refine ⟨hu, List.pairwise_singleton _ _, ?_⟩
      intro a ha b hb
      rw [List.mem_singleton] at hb
      subst hb
      intro hcontra
      exact (List.any_eq_false.mp htrip a ha)
        (by simp [hcontra.1, hcontra.2.1, hcontra.2.2])

/-- The upsert loop preserves triple uniqueness, whether or not it fails
part-way. -/
theorem tripleUnique_submitLoop (sessionId participantId now : String) :
    ∀ (items : List (String × Submission)) (db : DB) (n : Nat),
      tripleUnique db →
      tripleUnique (submitLoop sessionId participantId now db n items).1 := by
  intro items
  induction items with
  | nil => intro db n hu; exact hu
  | cons a rest ih =>
    intro db n hu
    obtain ⟨gid, sub⟩ := a
    cases hins : insertContribution db
        (contributionOfSubmission gid sessionId participantId now sub) with
    | ok db' =>
      simp only [submitLoop, hins]
      exact ih db' (n + 1) (tripleUnique_insertContribution hu hins)
    | error msg =>
      simp only [submitLoop, hins]
      exact hu

/-- C7: at most one contribution row per (session, topic, participant)
triple.  (a) Any submission call — including one that fails mid-batch —
preserves the triple-uniqueness invariant.  (b) When both generated
contribution ids are fresh (a colliding id would abort with the
duplicate-key error instead, as in C1's failing input), submitting twice
for the same triple leaves exactly one row for it, bearing the second
submission's content: the second call hits the `ON CONFLICT` update path
instead of inserting a second row. -/
theorem contribution_upsert_replaces :
    (∀ (db : DB) (sessionId participantId : String) (submissions : List Submission)
        (contributionIds : List String) (now : String),
        tripleUnique db →
        tripleUnique
          (submitAllContributions db sessionId participantId submissions contributionIds now).2) ∧
    (∀ (db : DB) (sessionId participantId gid1 gid2 now1 now2 : String)
        (sub1 sub2 : Submission) (s : SessionRow),
        participantId ≠ "" →
        findSession db sessionId = some s →
        (s.session_state = "published" ∨ s.session_state = "contributing") →
        sub2.rowId = sub1.rowId →
        rowsForTriple db sessionId sub1.rowId participantId = [] →
        db.contributions.any (fun r => r.contribution_id == gid1) = false →
        db.contributions.any (fun r => r.contribution_id == gid2) = false →
        (submitAllContributions db sessionId participantId [sub1] [gid1] now1).1
            = submitSuccessResponse 1 ∧
        (submitAllContributions
            (submitAllContributions db sessionId participantId [sub1] [gid1] now1).2
            sessionId participantId [sub2] [gid2] now2).1 = submitSuccessResponse 1 ∧
        rowsForTriple
          (submitAllContributions
              (submitAllContributions db sessionId participantId [sub1] [gid1] now1).2
              sessionId participantId [sub2] [gid2] now2).2
          sessionId sub1.rowId participantId
          = [contributionOfSubmission gid2 sessionId participantId now2 sub2]) := by
  constructor
  · intro db sessionId participantId submissions contributionIds now hu
    have hloop := tripleUnique_submitLoop sessionId participantId now
      (contributionIds.zip submissions) db 0 hu
    unfold submitAllContributions
    split
    · exact hu
    · split
      · exact hu
      · split
        · exact hu
        · split
          · exact hu
          · split
            · rename_i dbAfter n msg heq
              rw [heq] at hloop
              split
              · exact hloop
              · exact hloop
            · rename_i dbAfter saved heq
              rw [heq] at hloop
              exact hloop
  · intro db sessionId participantId gid1 gid2 now1 now2 sub1 sub2 s
      h1 hfind hstate h12 htriple hpk1 hpk2
    have htripleAll := List.filter_eq_nil_iff.mp htriple
    have hany1 : db.contributions.any (fun r =>
        r.session_id == sessionId && r.topic_id == sub1.rowId
          && r.participant_id == participantId) = false :=
      List.any_eq_false.mpr htripleAll
    have hins1 : insertContribution db
        (contributionOfSubmission gid1 sessionId participantId now1 sub1)
        = Except.ok { db with contributions := db.contributions ++
            [contributionOfSubmission gid1 sessionId participantId now1 sub1] } := by
      simp [insertContribution, contributionOfSubmission, hany1, hpk1]
    have hstcond : ¬(s.session_state ≠ "published" ∧ s.session_state ≠ "contributing") := by
      rcases hstate with hs | hs <;> simp [hs]
    have e1 : submitAllContributions db sessionId participantId [sub1] [gid1] now1
        = (submitSuccessResponse 1,
            markSubmitted
              { db with contributions := db.contributions ++
                  [contributionOfSubmission gid1 sessionId participantId now1 sub1] }
              sessionId participantId now1) := by
      simp [submitAllContributions, h1, hfind, hstcond, submitLoop, hins1]
    rw [e1]
    refine ⟨rfl, ?_⟩
    have hfind2 : findSession
        (markSubmitted
          { db with contributions := db.contributions ++
              [contributionOfSubmission gid1 sessionId participantId now1 sub1] }
          sessionId participantId now1) sessionId = some s := hfind
    have hany2 : (db.contributions ++
        [contributionOfSubmission gid1 sessionId participantId now1 sub1]).any (fun r =>
          r.session_id == sessionId && r.topic_id == sub2.rowId
            && r.participant_id == participantId) = true := by
      rw [List.any_eq_true]
      refine ⟨contributionOfSubmission gid1 sessionId participantId now1 sub1,
        List.mem_append_right _ (List.mem_singleton.mpr rfl), ?_⟩
      simp [contributionOfSubmission, h12]
    have hmapid : (db.contributions ++
          [contributionOfSubmission gid1 sessionId participantId now1 sub1]).map
            (upsertContent (contributionOfSubmission gid2 sessionId participantId now2 sub2))
        = db.contributions ++
            [contributionOfSubmission gid2 sessionId participantId now2 sub2] := by
      rw [List.map_append]
      congr 1
      · have : ∀ r ∈ db.contributions,
            upsertContent (contributionOfSubmission gid2 sessionId participantId now2 sub2) r
              = r := by
          intro r hr
          have hfalse := htripleAll r hr
          unfold upsertContent
          rw [if_neg]
          simp only [contributionOfSubmission]
          intro hcond
          exact hfalse (by simpa [h12] using hcond)
        calc db.contributions.map
              (upsertContent (contributionOfSubmission gid2 sessionId participantId now2 sub2))
            = db.contributions.map id := List.map_congr_left this
          _ = db.contributions := List.map_id _
      · simp [upsertContent, contributionOfSubmission, h12]
    have hins2 : insertContribution
        (markSubmitted
          { db with contributions := db.contributions ++
              [contributionOfSubmission gid1 sessionId participantId now1 sub1] }
          sessionId participantId now1)
        (contributionOfSubmission gid2 sessionId participantId now2 sub2)
        = Except.ok
            { markSubmitted
                { db with contributions := db.contributions ++
                    [contributionOfSubmission gid1 sessionId participantId now1 sub1] }
                sessionId participantId now1 with
              contributions := db.contributions ++
                [contributionOfSubmission gid2 sessionId participantId now2 sub2] } := by
      show insertContribution _ _ = _
      unfold insertContribution
      rw [if_pos]
      · rw [if_neg]
        · rw [show (markSubmitted
              { db with contributions := db.contributions ++
                  [contributionOfSubmission gid1 sessionId participantId now1 sub1] }
              sessionId participantId now1).contributions
              = db.contributions ++
                  [contributionOfSubmission gid1 sessionId participantId now1 sub1] from rfl]
          rw [hmapid]
        · show ¬(((markSubmitted _ _ _ _).contributions.any _) = true)
          rw [show (markSubmitted
              { db with contributions := db.contributions ++
                  [contributionOfSubmission gid1 sessionId participantId now1 sub1] }
              sessionId participantId now1).contributions
              = db.contributions ++
                  [contributionOfSubmission gid1 sessionId participantId now1 sub1] from rfl]
          intro hcontra
          rw [List.any_eq_true] at hcontra
          obtain ⟨r, hr, hpred⟩ := hcontra
          rw [List.mem_append] at hr
          rcases hr with hr | hr
          · have hfalse := List.any_eq_false.mp hpk2 r hr
            simp only [contributionOfSubmission, Bool.and_eq_true] at hpred
            exact hfalse hpred.1
          · rw [List.mem_singleton] at hr
            subst hr
            simp [contributionOfSubmission, h12] at hpred
      · show ((markSubmitted _ _ _ _).contributions.any _) = true
        rw [show (markSubmitted
            { db with contributions := db.contributions ++
                [contributionOfSubmission gid1 sessionId participantId now1 sub1] }
            sessionId participantId now1).contributions
            = db.contributions ++
                [contributionOfSubmission gid1 sessionId participantId now1 sub1] from rfl]
        simpa [contributionOfSubmission] using hany2
    have e2 : submitAllContributions
        (markSubmitted
          { db with contributions := db.contributions ++
              [contributionOfSubmission gid1 sessionId participantId now1 sub1] }
          sessionId participantId now1)
        sessionId participantId [sub2] [gid2] now2
        = (submitSuccessResponse 1,
            markSubmitted
              { markSubmitted
                  { db with contributions := db.contributions ++
                      [contributionOfSubmission gid1 sessionId participantId now1 sub1] }
                  sessionId participantId now1 with
                contributions := db.contributions ++
                  [contributionOfSubmission gid2 sessionId participantId now2 sub2] }
              sessionId participantId now2) := by
      simp [submitAllContributions, h1, hfind2, hstcond, submitLoop, hins2]
    rw [e2]
    refine ⟨rfl, ?_⟩
    have htriple' : db.contributions.filter (fun c =>
        c.session_id == sessionId && c.topic_id == sub1.rowId
          && c.participant_id == participantId) = [] := htriple
    show (db.contributions ++
        [contributionOfSubmission gid2 sessionId participantId now2 sub2]).filter _ = _
    rw [List.filter_append, htriple']
    simp [contributionOfSubmission, h12]

/-- C7 witness: Bob submits for (s1, t1) twice in the contributing phase;
after the second call exactly one row for the triple remains and it carries
the second submission's content and id. -/
theorem contribution_upsert_replaces_spot :
    (submitAllContributions (exDb "contributing") "s1" "bob@x.com" [exSub1] ["cb1"] "n1").1
      = submitSuccessResponse 1 ∧
    (submitAllContributions
        (submitAllContributions (exDb "contributing") "s1" "bob@x.com" [exSub1] ["cb1"] "n1").2
        "s1" "bob@x.com" [exSub1] ["cb2"] "n2").1 = submitSuccessResponse 1 ∧
    rowsForTriple
      (submitAllContributions
          (submitAllContributions (exDb "contributing") "s1" "bob@x.com" [exSub1] ["cb1"] "n1").2
          "s1" "bob@x.com" [exSub1] ["cb2"] "n2").2
      "s1" "t1" "bob@x.com"
      = [contributionOfSubmission "cb2" "s1" "bob@x.com" "n2" exSub1] := by
  have h := contribution_upsert_replaces.2 (exDb "contributing") "s1" "bob@x.com" "cb1" "cb2"
    "n1" "n2" exSub1 exSub1 (exSession "contributing") (by decide) (by rfl)
    (Or.inr (by decide)) (by decide) (by decide) (by decide) (by decide)
  exact h

/-- C1: the batch-submit handler commits each upsert on its own with no
surrounding transaction, so a failure mid-batch leaves partial state.  On
the concrete store, Bob submits two items; the first upsert commits, the
second hits the `contribution_id` primary key (its generated id collides
with Alice's existing row `c-dup`), the handler answers 500 — yet Bob's
first contribution stays saved while his roster status never flips to
`submitted`.  This contradicts the all-or-nothing contract and the
backend's own "Transaction-based writes" documentation. -/
theorem submit_batch_failure_keeps_prior_rows :
    (submitAllContributions exDbBatch "s1" "bob@x.com" [exSub1, exSub2]
        ["c-new1", "c-dup"] "n").1 = submitStorageErrorResponse ∧
    rowsForTriple (submitAllContributions exDbBatch "s1" "bob@x.com" [exSub1, exSub2]
        ["c-new1", "c-dup"] "n").2 "s1" "t1" "bob@x.com"
      = [contributionOfSubmission "c-new1" "s1" "bob@x.com" "n" exSub1] ∧
    (findParticipant (submitAllContributions exDbBatch "s1" "bob@x.com" [exSub1, exSub2]
        ["c-new1", "c-dup"] "n").2 "s1" "bob@x.com").map (fun p => p.status)
      = some "joined" := by
  refine ⟨?_, ?_, ?_⟩ <;> decide

/-- C6 counterexample: the contribution listing does expose the author's
participant id — its history entries carry a `participantId` field and an
`email` field both equal to the contribution's `participant_id`, here
`alice@x.com`; so the listing does not exclude participant ids from its
output. -/
theorem listing_exposes_participant_identity :
    (getContributions exDbVoted "s1").map (fun g => g.history.map (fun e => e.participantId))
      = [["alice@x.com"]] ∧
    (getContributions exDbVoted "s1").map (fun g => g.history.map (fun e => e.email))
      = [["alice@x.com"]] := by
  constructor <;>
    simp [getContributions, exDbVoted, exDb, exSession, exContribution, exTopic1, exTopic2,
      exVote, exAlice, exBob, joinedRowLE, mkHistoryEntry, groupRows, addEntry,
      countVotesFor, findParticipant]

/-- Every entry of every group produced by the grouping pass comes from the
accumulator or from the flat row list. -/
theorem groupRows_entry_prop (P : HistoryEntry → Prop) :
    ∀ (l : List (TopicRow × HistoryEntry)) (acc : List TopicGroup),
      (∀ g ∈ acc, ∀ e ∈ g.history, P e) → (∀ te ∈ l, P te.2) →
      ∀ g ∈ groupRows acc l, ∀ e ∈ g.history, P e := by
  intro l
  induction l with
  | nil => intro acc hacc _ g hg; exact hacc g hg
  | cons a rest ih =>
    intro acc hacc hl g hg
    obtain ⟨t, e0⟩ := a
    have he0 : P e0 := hl (t, e0) (List.mem_cons_self _ _)
    refine ih (addEntry acc t e0) ?_ (fun te hte => hl te (List.mem_cons_of_mem _ hte)) g hg
    intro g' hg' e he
    unfold addEntry at hg'
    split at hg'
    · rw [List.mem_map] at hg'
      obtain ⟨g'', hg'', hfg⟩ := hg'
      by_cases hid : (g''.id == t.topic_id) = true
      · rw [if_pos hid] at hfg
        subst hfg
        rw [List.mem_append] at he
        rcases he with he | he
        · exact hacc g'' hg'' e he
        · rw [List.mem_singleton] at he; subst he; exact he0
      · rw [if_neg hid] at hfg
        subst hfg
        exact hacc g'' hg'' e he
    · rw [List.mem_append] at hg'
      rcases hg' with hg' | hg'
      · exact hacc g' hg' e he
      · rw [List.mem_singleton] at hg'
        subst hg'
        rw [List.mem_singleton] at he
        subst he
        exact he0

/-- C6 amended: votes cross the boundary only as counts and voter
identities never leak — the listing's `voters` field is the literal empty
list, the listing output is unchanged by any rewrite of the vote table that
keeps the per-contribution counts, and the report ignores the entry fields
beyond the eight it copies (in particular `participantId` and `voters`) —
but, unlike what the claim states, the listing does carry each
contribution author's participant id in its `participantId` and `email`
fields. -/
theorem votes_exposed_only_as_counts :
    (∀ (db : DB) (sessionId : String) (g : TopicGroup) (e : HistoryEntry),
        g ∈ getContributions db sessionId → e ∈ g.history → e.voters = []) ∧
    (∀ (db : DB) (vs : List VoteRow) (sessionId : String),
        (∀ cid, countVotesFor { db with votes := vs } cid = countVotesFor db cid) →
        getContributions { db with votes := vs } sessionId
          = getContributions db sessionId) ∧
    (∀ rows : List TopicGroup,
        downloadReportTopics (rows.map scrubRow) = downloadReportTopics rows) ∧
    (∀ (db : DB) (sessionId : String) (g : TopicGroup) (e : HistoryEntry),
        g ∈ getContributions db sessionId → e ∈ g.history →
        ∃ c ∈ db.contributions,
          e.participantId = c.participant_id ∧ e.email = c.participant_id) := by
  refine ⟨?_, ?_, ?_, ?_⟩
  · intro db sessionId g e hg he
    refine groupRows_entry_prop (fun e => e.voters = []) _ [] (by simp) ?_ g hg e he
    intro te hte
    rw [List.mem_map] at hte
    obtain ⟨p, _, hp⟩ := hte
    subst hp
    rfl
  · intro db vs sessionId hcount
    have hc : ∀ (c : ContributionRow),
        mkHistoryEntry { db with votes := vs } sessionId c = mkHistoryEntry db sessionId c := by
      intro c
      unfold mkHistoryEntry
      rw [hcount c.contribution_id]
      rfl
    unfold getContributions
    congr 1
    apply List.map_congr_left
    intro p _
    rw [hc p.1]
  · intro rows
    have hone : ∀ r, reportTopicOfRow (scrubRow r) = reportTopicOfRow r := by
      intro r
      unfold reportTopicOfRow scrubRow
      have : (r.history.map scrubEntry).map toReportContribution
          = r.history.map toReportContribution := by
        rw [List.map_map]
        exact List.map_congr_left (fun e _ => rfl)
      simp only [this]
    unfold downloadReportTopics
    rw [List.map_map]
    congr 1
    exact List.map_congr_left (fun r _ => hone r)
  · intro db sessionId g e hg he
    refine groupRows_entry_prop (fun e => ∃ c ∈ db.contributions,
      e.participantId = c.participant_id ∧ e.email = c.participant_id) _ [] (by simp)
      ?_ g hg e he
    intro te hte
    rw [List.mem_map] at hte
    obtain ⟨p, hp, hpe⟩ := hte
    subst hpe
    rw [List.mem_mergeSort, List.mem_filterMap] at hp
    obtain ⟨c, hc, hfc⟩ := hp
    rw [Option.map_eq_some'] at hfc
    obtain ⟨t, _, ht⟩ := hfc
    have hcmem : c ∈ db.contributions := List.mem_of_mem_filter hc
    refine ⟨c, hcmem, ?_, ?_⟩ <;> (cases ht; rfl)

/-- C6 amended witness: renaming the voter of the one stored vote (Bob to
Carol) leaves the listing output literally unchanged — the voter's identity
is not derivable from the interface. -/
theorem votes_exposed_only_as_counts_spot :
    getContributions
        { exDbVoted with votes :=
            [{ vote_id := "v1", contribution_id := "c1", voter_id := "carol@x.com",
               voted_at := "t" }] } "s1"
      = getContributions exDbVoted "s1" := by
  apply votes_exposed_only_as_counts.2.1
  intro cid
  show (List.filter (fun v => v.contribution_id == cid)
      [({ vote_id := "v1", contribution_id := "c1", voter_id := "carol@x.com",
          voted_at := "t" } : VoteRow)]).length
    = (List.filter (fun v => v.contribution_id == cid) [exVote]).length
  cases h : (("c1" : String) == cid) <;> simp [exVote, List.filter_cons, h]

/-- Stability of `mergeSort` in relational form: if the input is pairwise
`R` with `R` reflexive, then any two output elements the comparator regards
as tied (the later-placed one also "≤" the earlier) still satisfy `R` in
output order. -/
theorem mergeSort_pairwise_tie {α : Type} (le : α → α → Bool)
    (htrans : ∀ a b c, le a b → le b c → le a c)
    (htotal : ∀ a b, le a b || le b a)
    (R : α → α → Prop) (hrefl : ∀ a, R a a)
    (l : List α) (hl : l.Pairwise R) :
    (l.mergeSort le).Pairwise (fun a b => le b a → R a b) := by
  have hs := List.sorted_mergeSort (fun a b c => List.enumLE_trans htrans a b c)
      (fun a b => List.enumLE_total htotal a b) l.enum
  have key : (l.enum.mergeSort (List.enumLE le)).Pairwise
      (fun p q => le q.2 p.2 → R p.2 q.2) := by
    refine hs.imp_of_mem ?_
    intro p q hp hq hpq hle
    rw [List.mem_mergeSort] at hp hq
    have hp' := List.mem_enum_iff_getElem?.mp hp
    have hq' := List.mem_enum_iff_getElem?.mp hq
    unfold List.enumLE at hpq
    by_cases h1 : le p.2 q.2 = true
    · rw [if_pos h1, if_pos hle] at hpq
      have hij : p.1 ≤ q.1 := by simpa using hpq
      rcases Nat.eq_or_lt_of_le hij with heq | hlt
      · rw [heq, hq'] at hp'
        rw [show q.2 = p.2 from Option.some.inj hp']
        exact hrefl _
      · obtain ⟨hip, hgp⟩ := List.getElem?_eq_some.mp hp'
        obtain ⟨hiq, hgq⟩ := List.getElem?_eq_some.mp hq'
        have hR := List.pairwise_iff_getElem.mp hl p.1 q.1 hip hiq hlt
        rw [hgp, hgq] at hR
        exact hR
    · rw [if_neg h1] at hpq
      exact absurd hpq (by simp)
  have hmap : (List.map (fun x => x.2) (l.enum.mergeSort (List.enumLE le))).Pairwise
      (fun a b => le b a → R a b) := by
    rw [List.pairwise_map]
    exact key
  rw [@List.mergeSort_enum _ le l] at hmap
  exact hmap

theorem topicLE_trans : ∀ a b c : ReportTopic, topicLE a b → topicLE b c → topicLE a c := by
  intro a b c h1 h2
  simp only [topicLE, decide_eq_true_eq] at *
  omega

theorem topicLE_total : ∀ a b : ReportTopic, topicLE a b || topicLE b a := by
  intro a b
  simp only [topicLE, Bool.or_eq_true, decide_eq_true_eq]
  omega

theorem contributionLE_trans :
    ∀ a b c : ReportContribution, contributionLE a b → contributionLE b c → contributionLE a c := by
  intro a b c h1 h2
  simp only [contributionLE, decide_eq_true_eq] at *
  omega

theorem contributionLE_total :
    ∀ a b : ReportContribution, contributionLE a b || contributionLE b a := by
  intro a b
  simp only [contributionLE, Bool.or_eq_true, decide_eq_true_eq]
  omega

/-- C5: the report's sort contract.  Given report input whose per-topic
histories are in submission-time order (the order the backend listing
produces), the compiled topics are (1) descending by `totalVotes`,
(2) equal-total topics keep their original relative order (the comparator
returns a tie and JavaScript's sort — modelled by `mergeSort` — is stable),
(3) each topic's contributions are descending by `votes`, (4) equal-vote
contributions are in submission-timestamp ascending order, and (5) each
topic's `totalVotes` is the sum of its contributions' votes. -/
theorem report_sort_contract (rows : List TopicGroup)
    (hts : ∀ r ∈ rows, r.history.Pairwise
      (fun a b => a.submittedAt ≤ b.submittedAt)) :
    (downloadReportTopics rows).Pairwise (fun t u => u.totalVotes ≤ t.totalVotes) ∧
    (∀ t u, [t, u].Sublist (rows.map reportTopicOfRow) → u.totalVotes ≤ t.totalVotes →
      [t, u].Sublist (downloadReportTopics rows)) ∧
    (∀ t ∈ downloadReportTopics rows,
      t.contributions.Pairwise (fun a b => b.votes ≤ a.votes)) ∧
    (∀ t ∈ downloadReportTopics rows,
      t.contributions.Pairwise
        (fun a b => a.votes = b.votes → a.submittedAt ≤ b.submittedAt)) ∧
    (∀ t ∈ downloadReportTopics rows,
      t.totalVotes = (t.contributions.map (fun c => c.votes)).sum) := by
  refine ⟨?_, ?_, ?_, ?_, ?_⟩
  · have hs := List.sorted_mergeSort topicLE_trans topicLE_total (rows.map reportTopicOfRow)
    exact hs.imp (fun h => by simpa [topicLE] using h)
  · intro t u hsub hle
    exact List.sublist_mergeSort topicLE_trans topicLE_total
      (List.pairwise_pair.mpr (by simpa [topicLE] using hle)) hsub
  · intro t ht
    unfold downloadReportTopics at ht
    rw [List.mem_mergeSort, List.mem_map] at ht
    obtain ⟨r, hr, rfl⟩ := ht
    have hs := List.sorted_mergeSort contributionLE_trans contributionLE_total
      (r.history.map toReportContribution)
    exact hs.imp (fun h => by simpa [contributionLE] using h)
  · intro t ht
    unfold downloadReportTopics at ht
    rw [List.mem_mergeSort, List.mem_map] at ht
    obtain ⟨r, hr, rfl⟩ := ht
    have hl : (r.history.map toReportContribution).Pairwise
        (fun a b => a.submittedAt ≤ b.submittedAt) := by
      rw [List.pairwise_map]
      exact (hts r hr).imp (fun h => h)
    have hkey := mergeSort_pairwise_tie contributionLE contributionLE_trans
      contributionLE_total (fun a b => a.submittedAt ≤ b.submittedAt)
      (fun a => le_refl _) (r.history.map toReportContribution) hl
    exact hkey.imp (fun h hv => h (by simp [contributionLE, hv]))
  · intro t ht
    unfold downloadReportTopics at ht
    rw [List.mem_mergeSort, List.mem_map] at ht
    obtain ⟨r, hr, rfl⟩ := ht
    show ((r.history.map toReportContribution).map (fun c => c.votes)).sum = _
    exact (List.Perm.sum_eq ((List.mergeSort_perm (r.history.map toReportContribution)
      contributionLE).map (fun c => c.votes))).symm

/-- C5 witness: topics with total votes 15, 30, 5 come out ordered
30, 15, 5, and contributions with votes 3, 10, 5 come out ordered
10, 5, 3 (with the sortedness conclusion drawn from the contract itself). -/
theorem report_sort_contract_spot :
    (downloadReportTopics exRowsTopics).map (fun t => t.totalVotes) = [30, 15, 5] ∧
    (downloadReportTopics exRowContribs).map
        (fun t => t.contributions.map (fun c => c.votes)) = [[10, 5, 3]] ∧
    (downloadReportTopics exRowsTopics).Pairwise (fun t u => u.totalVotes ≤ t.totalVotes) := by
  refine ⟨?_, ?_, (report_sort_contract exRowsTopics (by decide)).1⟩
  · simp [downloadReportTopics, reportTopicOfRow, toReportContribution, exRowsTopics,
      exEntry, topicLE, contributionLE, List.mergeSort, List.splitInTwo, List.splitAt,
      List.splitAt.go, List.merge]
  · simp [downloadReportTopics, reportTopicOfRow, toReportContribution, exRowContribs,
      exEntry, topicLE, contributionLE, List.mergeSort, List.splitInTwo, List.splitAt,
      List.splitAt.go, List.merge]

end PlausibleFutures
